import Mathlib

/-!
Verification of the users microservice (FastAPI) against its specification.

The embedding follows src/app/routers/users.py (the router that main.py
mounts), src/app/crud/users.py, and src/app/models.py.  Python dicts keyed
by id are modelled as association lists with a replace-or-append `dictSet`;
datetime values are modelled by their canonical ISO strings (isoformat is
injective on datetimes, and the code itself converts datetimes to isoformat
strings before hashing or serialising them).
-/

set_option autoImplicit false

/-- Association-list lookup: the value of the first pair whose key matches,
mirroring Python dict indexing and the `in` test. -/
def lookupKey {κ α : Type} [DecidableEq κ] : List (κ × α) → κ → Option α
  | [], _ => none
  | p :: rest, k => if p.1 = k then some p.2 else lookupKey rest k

/-- Association-list update: `d[k] = v` on a Python dict replaces the value
in place when the key is present and appends a new entry otherwise. -/
def dictSet {κ α : Type} [DecidableEq κ] (s : List (κ × α)) (k : κ) (v : α) :
    List (κ × α) :=
  if (lookupKey s k).isSome then
    s.map (fun p => if p.1 = k then (k, v) else p)
  else
    s ++ [(k, v)]

/-- Association-list deletion: `del d[k]` removes the entry with key k. -/
def delKey {κ α : Type} [DecidableEq κ] : List (κ × α) → κ → List (κ × α)
  | [], _ => []
  | p :: rest, k => if p.1 = k then delKey rest k else p :: delKey rest k

/-- The character of a decimal digit, as produced by Python str formatting. -/
def digitChar (d : Nat) : Char :=
  Char.ofNat (48 + d)

/-- Accumulator loop producing the decimal digit characters of a natural
number, most significant first. -/
def natDigitsAux (n : Nat) (acc : List Char) : List Char :=
  if n < 10 then
    digitChar n :: acc
  else
    natDigitsAux (n / 10) (digitChar (n % 10) :: acc)
termination_by n
decreasing_by
  exact Nat.div_lt_self (by omega) (by omega)

/-- Decimal representation of a natural number: the embedding of the f-string
interpolation of a Python int. -/
def natRepr (n : Nat) : String :=
  ⟨natDigitsAux n []⟩

/-- A stored user record, as held in the MOCK_USERS dict
(src/app/routers/users.py).  The dict is schemaless, so every profile field
may hold None after an explicit-null update; required fields are populated on
creation.  Timestamps are carried as their canonical ISO strings. -/
structure StoredUser where
  user_id : Nat
  first_name : Option String
  last_name : Option String
  email : Option String
  phone : Option String
  address : Option String
  city : Option String
  state : Option String
  zip_code : Option String
  status : String
  created_at : String
  updated_at : String
  deriving DecidableEq

/-- The user store: a dict from user id to record. -/
abbrev Store : Type := List (Nat × StoredUser)

/-- First seeded mock record (user 1, John Smith). -/
def mockUser1 : StoredUser :=
  { user_id := 1
    first_name := some "John"
    last_name := some "Smith"
    email := some "john.smith@email.com"
    phone := some "555-0101"
    address := some "123 Main St"
    city := some "Seattle"
    state := some "WA"
    zip_code := some "98101"
    status := "active"
    created_at := "2024-01-15T10:00:00"
    updated_at := "2024-01-15T10:00:00" }

/-- Second seeded mock record (user 2, Jane Doe). -/
def mockUser2 : StoredUser :=
  { user_id := 2
    first_name := some "Jane"
    last_name := some "Doe"
    email := some "jane.doe@email.com"
    phone := some "555-0102"
    address := some "456 Oak Ave"
    city := some "Portland"
    state := some "OR"
    zip_code := some "97201"
    status := "active"
    created_at := "2024-01-16T10:00:00"
    updated_at := "2024-01-16T10:00:00" }

/-- The seeded MOCK_USERS store. -/
def mockUsers : Store :=
  [(1, mockUser1), (2, mockUser2)]

/-- Idealised stand-in for the hashlib.md5 hexdigest primitive.  The digest
is an external cryptographic collaborator; the specification defines
fingerprint equality purely by equality of the digested pair, i.e. treats
the digest as collision-free, so it is modelled as an injective (identity)
encoding of its input. -/
def md5Hex (s : String) : String :=
  s

/-- The string digested by generate_etag: the f-string
interpolation of user_id, a dash, and the isoformat of updated_at. -/
def etagData (u : StoredUser) : String :=
  natRepr u.user_id ++ "-" ++ u.updated_at

/-- generate_etag (src/app/routers/users.py): the quoted hex digest of
etagData. -/
def generate_etag (u : StoredUser) : String :=
  "\"" ++ md5Hex (etagData u) ++ "\""

/-- Outcome of the GET single-user endpoint. -/
inductive GetUserResult where
  | notFound
  | notModified (etag : String)
  | ok (user : StoredUser) (etag : String)
  deriving DecidableEq

/-- get_user (src/app/routers/users.py): 404 when absent; 304 with the ETag
echoed when the If-None-Match header is truthy (non-empty) and equals the
stored ETag; otherwise the full record with the ETag header. -/
def get_user (store : Store) (uid : Nat) (ifNoneMatch : Option String) :
    GetUserResult :=
  match lookupKey store uid with
  | none => .notFound
  | some u =>
    let etag := generate_etag u
    match ifNoneMatch with
    | some h => if h ≠ "" ∧ h = etag then .notModified etag else .ok u etag
    | none => .ok u etag

/-- A creation payload (models.UserCreate): required names and email,
optional profile fields, required password. -/
structure UserCreate where
  first_name : String
  last_name : String
  email : String
  phone : Option String
  address : Option String
  city : Option String
  state : Option String
  zip_code : Option String
  password : String
  deriving DecidableEq

/-- The keys of the store, for stating facts about existing identifiers. -/
def storeKeys (store : Store) : List Nat :=
  store.map Prod.fst

/-- The maximum key of the store (0 on the empty store); on a non-empty
store this is the max over the dict keys computed by the source. -/
def maxKey (store : Store) : Nat :=
  store.foldr (fun p acc => max p.1 acc) 0

/-- The identifier create_user assigns:
max over existing keys plus one when the store is non-empty, else 1. -/
def newUserId (store : Store) : Nat :=
  if store.isEmpty then 1 else maxKey store + 1

/-- create_user (src/app/routers/users.py): builds the new record with a
fresh id, status active and both timestamps set to now, stores it, and
returns it (201 with the record as body).  No uniqueness check of any kind
is performed on the email. -/
def create_user (store : Store) (u : UserCreate) (now : String) :
    Store × StoredUser :=
  let new_id := newUserId store
  let nu : StoredUser :=
    { user_id := new_id
      first_name := some u.first_name
      last_name := some u.last_name
      email := some u.email
      phone := u.phone
      address := u.address
      city := u.city
      state := u.state
      zip_code := u.zip_code
      status := "active"
      created_at := now
      updated_at := now }
  (dictSet store new_id nu, nu)

/-- register_user (src/app/routers/users.py): the body is a single
delegation, return await create_user(user, request). -/
def register_user (store : Store) (u : UserCreate) (now : String) :
    Store × StoredUser :=
  create_user store u now

/-- Outcome of the login endpoint. -/
inductive LoginResult where
  | unauthorized
  | ok (user_id : Nat) (email : String) (token : String)
  deriving DecidableEq

/-- login_user (src/app/routers/users.py): scans the store values in order
for the first record whose email equals the credential email; 401 when none
matches, otherwise a bearer token.  The password argument of the request is
never consulted by this endpoint. -/
def login_user (store : Store) (email : String) (password : String) :
    LoginResult :=
  match store.find? (fun p => p.2.email = some email) with
  | none => .unauthorized
  | some p => .ok p.2.user_id email "mock_jwt_token_12345"

/-- An update payload (models.UserUpdate): every field optional.  The outer
Option is present-vs-absent (exclude_unset); the inner Option is the value,
where none is an explicitly supplied null. -/
structure UserUpdate where
  first_name : Option (Option String)
  last_name : Option (Option String)
  email : Option (Option String)
  phone : Option (Option String)
  address : Option (Option String)
  city : Option (Option String)
  state : Option (Option String)
  zip_code : Option (Option String)
  deriving DecidableEq

/-- The update payload with every field absent. -/
def emptyUpdate : UserUpdate :=
  { first_name := none, last_name := none, email := none, phone := none
    address := none, city := none, state := none, zip_code := none }

/-- applyUserUpdate: the dict-update loop of update_user — each field that
is present in `exclude_unset` data overwrites the stored value (an explicit
null overwrites with None), then updated_at is set to now. -/
def applyUserUpdate (u : StoredUser) (p : UserUpdate) (now : String) :
    StoredUser :=
  { u with
    first_name := p.first_name.getD u.first_name
    last_name := p.last_name.getD u.last_name
    email := p.email.getD u.email
    phone := p.phone.getD u.phone
    address := p.address.getD u.address
    city := p.city.getD u.city
    state := p.state.getD u.state
    zip_code := p.zip_code.getD u.zip_code
    updated_at := now }

/-- update_user (src/app/routers/users.py): 404 when the target id is
absent; otherwise applies the supplied fields, refreshes updated_at, stores
the record and returns it.  The route declares no If-Match header and
performs no fingerprint comparison. -/
def update_user (store : Store) (uid : Nat) (p : UserUpdate) (now : String) :
    Option (Store × StoredUser) :=
  match lookupKey store uid with
  | none => none
  | some u =>
    let u2 := applyUserUpdate u p now
    some (dictSet store uid u2, u2)

/-- delete_user (src/app/routers/users.py): 404 when the target id is
absent; otherwise removes the entry (204).  The route declares no If-Match
header and performs no fingerprint comparison. -/
def delete_user (store : Store) (uid : Nat) : Option Store :=
  match lookupKey store uid with
  | none => none
  | some _ => some (delKey store uid)

/-- The server's handling of a PUT request that carries an If-Match header:
the route signature declares no such header, so FastAPI drops it and the
handler runs unchanged. -/
def update_request (store : Store) (uid : Nat) (p : UserUpdate) (now : String)
    (ifMatch : Option String) : Option (Store × StoredUser) :=
  update_user store uid p now

/-- The server's handling of a DELETE request that carries an If-Match
header: the route signature declares no such header, so FastAPI drops it and
the handler runs unchanged. -/
def delete_request (store : Store) (uid : Nat) (ifMatch : Option String) :
    Option Store :=
  delete_user store uid

/-- The server's handling of a PUT issued by an authenticated actor: the
route has no authentication dependency and no ownership check, so the actor
identity never reaches the handler. -/
def update_as (actor : Nat) (store : Store) (uid : Nat) (p : UserUpdate)
    (now : String) : Option (Store × StoredUser) :=
  update_user store uid p now

/-- The server's handling of a DELETE issued by an authenticated actor: the
route has no authentication dependency and no ownership check. -/
def delete_as (actor : Nat) (store : Store) (uid : Nat) : Option Store :=
  delete_user store uid

/-- A rental record (models.UserRental). -/
structure UserRental where
  rental_id : Nat
  unit_id : Nat
  facility_name : String
  unit_number : String
  start_date : String
  end_date : Option String
  monthly_rate : Int
  is_active : Bool
  deriving DecidableEq

/-- Outcome of the rentals-list endpoint. -/
inductive RentalsResult where
  | notFound
  | ok (rentals : List UserRental)
  deriving DecidableEq

/-- get_user_rentals (src/app/routers/users.py): 404 when the user id is
absent, otherwise the mock empty rental list. -/
def get_user_rentals (store : Store) (uid : Nat) (activeOnly : Bool) :
    RentalsResult :=
  match lookupKey store uid with
  | none => .notFound
  | some _ => .ok []

/-- The server's handling of a rentals read issued by an authenticated
actor: the route has no authentication dependency and no ownership check. -/
def rentals_as (actor : Nat) (store : Store) (uid : Nat) (activeOnly : Bool) :
    RentalsResult :=
  get_user_rentals store uid activeOnly

/-- An async task record, as held in the task_storage dict
(src/app/routers/users.py). -/
structure TaskRecord where
  task_id : String
  status : String
  user_id : Option Nat
  message : String
  started_at : Option String
  completed_at : Option String
  deriving DecidableEq

/-- The in-memory task store: a dict from task id to record. -/
abbrev TaskStore : Type := List (String × TaskRecord)

/-- Outcome of the verify-email submission endpoint. -/
inductive VerifyEmailResult where
  | notFound
  | accepted (task_id : String) (status : String)
  deriving DecidableEq

/-- verify_email_async (src/app/routers/users.py): 404 when the user id is
absent; otherwise registers the fresh task id as pending with started_at set
to now and completed_at null, schedules the worker, and returns 202 with the
task id. -/
def verify_email_async (users : Store) (tasks : TaskStore) (uid : Nat)
    (tid : String) (now : String) : VerifyEmailResult × TaskStore :=
  match lookupKey users uid with
  | none => (.notFound, tasks)
  | some _ =>
    let rec0 : TaskRecord :=
      { task_id := tid
        status := "pending"
        user_id := some uid
        message := "Email verification in progress"
        started_at := some now
        completed_at := none }
    (.accepted tid "pending", dictSet tasks tid rec0)

/-- send_verification_email_task (src/app/routers/users.py): the background
worker; after the simulated delay it overwrites the task entry with status
completed, completed_at set to its own now, and started_at read back from
the stored entry.  Reading a missing task id raises (KeyError), modelled as
none. -/
def send_verification_email_task (tasks : TaskStore) (uid : Nat)
    (tid : String) (now : String) : Option TaskStore :=
  match lookupKey tasks tid with
  | none => none
  | some old =>
    some (dictSet tasks tid
      { task_id := tid
        status := "completed"
        user_id := some uid
        message := "Verification email sent successfully"
        started_at := old.started_at
        completed_at := some now })

/-- get_task_status (src/app/routers/users.py): 404 when the task id is
absent, otherwise the stored record. -/
def get_task_status (tasks : TaskStore) (tid : String) :
    Option TaskRecord :=
  lookupKey tasks tid

/-- A database user row (db_models.User), as used by the crud layer. -/
structure DbUser where
  user_id : Nat
  email : String
  hashed_password : String
  deriving DecidableEq

/-- The database user table for the crud layer. -/
abbrev DbStore : Type := List DbUser

/-- Modelled from the spec: app/security.py is imported by
src/app/crud/users.py but absent from src; the spec treats password hashing
as an opaque one-way keyed hash, so the hash is modelled as an injective
encoding of the plaintext. -/
def get_password_hash (p : String) : String :=
  "hashed:" ++ p

/-- Modelled from the spec: verification of a plaintext password against a
stored hash succeeds exactly when the hash was produced from that
plaintext. -/
def verify_password (plain : String) (hashed : String) : Bool :=
  get_password_hash plain = hashed

/-- get_user_by_email (src/app/crud/users.py): first row whose email
matches. -/
def get_user_by_email (db : DbStore) (email : String) : Option DbUser :=
  db.find? (fun u => u.email = email)

/-- authenticate_user (src/app/crud/users.py): none when no row has the
email; none when the password does not verify against the stored hash;
otherwise the user. -/
def authenticate_user (db : DbStore) (email : String) (password : String) :
    Option DbUser :=
  match get_user_by_email db email with
  | none => none
  | some user =>
    if verify_password password user.hashed_password then some user else none

/-- Iterated creation: the store after n further create_user calls with the
same payload and clock. -/
def createN (store : Store) (u : UserCreate) (now : String) : Nat → Store
  | 0 => store
  | n + 1 => (create_user (createN store u now n) u now).1

-- ==== Generic lemmas about the store and string embedding ====

theorem natDigitsAux_append (n : Nat) : ∀ acc : List Char,
    natDigitsAux n acc = natDigitsAux n [] ++ acc := by
  induction n using Nat.strong_induction_on with
  | _ n ih =>
    intro acc
    rw [natDigitsAux.eq_def]
    conv_rhs => rw [natDigitsAux.eq_def]
    by_cases h : n < 10
    · simp [h]
    · simp only [h, if_false]
      have hlt : n / 10 < n := Nat.div_lt_self (by omega) (by omega)
      rw [ih (n / 10) hlt (digitChar (n % 10) :: acc),
          ih (n / 10) hlt (digitChar (n % 10) :: [])]
      simp

theorem natDigitsAux_nil_ne_nil (n : Nat) : natDigitsAux n [] ≠ [] := by
  rw [natDigitsAux.eq_def]
  by_cases h : n < 10
  · simp [h]
  · simp only [h, if_false]
    rw [natDigitsAux_append]
    simp

theorem natDigitsAux_chars (n : Nat) :
    ∀ c ∈ natDigitsAux n [], ∃ d, d < 10 ∧ c = digitChar d := by
  induction n using Nat.strong_induction_on with
  | _ n ih =>
    intro c hc
    rw [natDigitsAux.eq_def] at hc
    by_cases h : n < 10
    · simp [h] at hc
      exact ⟨n, h, hc⟩
    · simp only [h, if_false] at hc
      rw [natDigitsAux_append] at hc
      have hlt : n / 10 < n := Nat.div_lt_self (by omega) (by omega)
      rcases List.mem_append.mp hc with h1 | h2
      · exact ih (n / 10) hlt c h1
      · simp at h2
        exact ⟨n % 10, Nat.mod_lt n (by omega), h2⟩

theorem digitChar_inj_lt : ∀ a < 10, ∀ b < 10,
    digitChar a = digitChar b → a = b := by
  decide

theorem digitChar_ne_dash : ∀ d < 10, digitChar d ≠ '-' := by
  decide

theorem natDigitsAux_nil_inj (m : Nat) : ∀ n : Nat,
    natDigitsAux m [] = natDigitsAux n [] → m = n := by
  induction m using Nat.strong_induction_on with
  | _ m ih =>
    intro n h
    rw [natDigitsAux.eq_def] at h
    conv_lhs at h => skip
    rw [natDigitsAux.eq_def (n := n)] at h
    by_cases hm : m < 10 <;> by_cases hn : n < 10
    · simp [hm, hn] at h
      exact digitChar_inj_lt m hm n hn h
    · simp only [hm, hn, if_true, if_false] at h
      rw [natDigitsAux_append] at h
      have := natDigitsAux_nil_ne_nil (n / 10)
      have hlen := congrArg List.length h
      rcases List.exists_cons_of_ne_nil this with ⟨c, cs, hcs⟩
      rw [hcs] at hlen
      simp at hlen
    · simp only [hm, hn, if_true, if_false] at h
      rw [natDigitsAux_append] at h
      have := natDigitsAux_nil_ne_nil (m / 10)
      have hlen := congrArg List.length h
      rcases List.exists_cons_of_ne_nil this with ⟨c, cs, hcs⟩
      rw [hcs] at hlen
      simp at hlen
    · simp only [hm, hn, if_false] at h
      rw [natDigitsAux_append, natDigitsAux_append (n / 10)] at h
      have hlt : m / 10 < m := Nat.div_lt_self (by omega) (by omega)
      have hinj := List.append_inj' h (by simp)
      have h1 := ih (m / 10) hlt (n / 10) hinj.1
      have h2 : digitChar (m % 10) = digitChar (n % 10) := by
        have := hinj.2
        simpa using this
      have h3 := digitChar_inj_lt (m % 10) (Nat.mod_lt m (by omega))
        (n % 10) (Nat.mod_lt n (by omega)) h2
      omega

theorem natRepr_inj {m n : Nat} (h : natRepr m = natRepr n) : m = n := by
  apply natDigitsAux_nil_inj
  exact congrArg String.data h

theorem natRepr_no_dash (n : Nat) : ∀ c ∈ (natRepr n).data, c ≠ '-' := by
  intro c hc
  rcases natDigitsAux_chars n c hc with ⟨d, hd, rfl⟩
  exact digitChar_ne_dash d hd

theorem append_dash_inj : ∀ (l1 l2 a b : List Char), ('-' ∉ l1) → ('-' ∉ l2) →
    l1 ++ '-' :: a = l2 ++ '-' :: b → l1 = l2 ∧ a = b := by
  intro l1
  induction l1 with
  | nil =>
    intro l2 a b _ h2 h
    cases l2 with
    | nil => simpa using h
    | cons c l2' =>
      simp at h
      exact absurd (h.1 ▸ List.mem_cons_self c l2') h2
  | cons c l1' ih =>
    intro l2 a b h1 h2 h
    cases l2 with
    | nil =>
      simp at h
      exact absurd (h.1 ▸ List.mem_cons_self c l1') h1
    | cons d l2' =>
      simp at h
      obtain ⟨rfl, hrest⟩ := h
      have := ih l2' a b (fun hm => h1 (List.mem_cons_of_mem _ hm))
        (fun hm => h2 (List.mem_cons_of_mem _ hm)) hrest
      exact ⟨by rw [this.1], this.2⟩

theorem lookupKey_map_set {κ α : Type} [DecidableEq κ]
    (s : List (κ × α)) (k : κ) (v w : α) (h : lookupKey s k = some w) :
    lookupKey (s.map (fun p => if p.1 = k then (k, v) else p)) k = some v := by
  induction s with
  | nil => simp [lookupKey] at h
  | cons p rest ih =>
    by_cases hp : p.1 = k
    · simp [lookupKey, hp]
    · simp only [lookupKey, hp, if_false] at h
      simp only [List.map_cons]
      rw [if_neg hp]
      simp only [lookupKey, hp, if_false]
      exact ih h

theorem lookupKey_append_single {κ α : Type} [DecidableEq κ]
    (s : List (κ × α)) (k : κ) (v : α) (h : lookupKey s k = none) :
    lookupKey (s ++ [(k, v)]) k = some v := by
  induction s with
  | nil => simp [lookupKey]
  | cons p rest ih =>
    by_cases hp : p.1 = k
    · simp [lookupKey, hp] at h
    · simp only [lookupKey, hp, if_false] at h
      simp only [List.cons_append, lookupKey, hp, if_false]
      exact ih h

theorem lookupKey_dictSet_self {κ α : Type} [DecidableEq κ]
    (s : List (κ × α)) (k : κ) (v : α) :
    lookupKey (dictSet s k v) k = some v := by
  unfold dictSet
  cases h : lookupKey s k with
  | none => simp only [h, Option.isSome_none, Bool.false_eq_true, if_false]
            exact lookupKey_append_single s k v h
  | some w => simp only [h, Option.isSome_some, if_true]
              exact lookupKey_map_set s k v w h

theorem lookupKey_delKey_self {κ α : Type} [DecidableEq κ]
    (s : List (κ × α)) (k : κ) :
    lookupKey (delKey s k) k = none := by
  induction s with
  | nil => simp [delKey, lookupKey]
  | cons p rest ih =>
    by_cases hp : p.1 = k
    · simpa [delKey, hp] using ih
    · simpa [delKey, hp, lookupKey] using ih

theorem lookupKey_delKey_ne {κ α : Type} [DecidableEq κ]
    (s : List (κ × α)) (k k' : κ) (hne : k' ≠ k) :
    lookupKey (delKey s k) k' = lookupKey s k' := by
  induction s with
  | nil => simp [delKey]
  | cons p rest ih =>
    have hkk : ¬ (k = k') := fun h => hne h.symm
    by_cases hp : p.1 = k
    · simpa [delKey, hp, lookupKey, hkk] using ih
    · by_cases hq : p.1 = k'
      · simp [delKey, hp, lookupKey, hq, hne]
      · simpa [delKey, hp, lookupKey, hq] using ih

theorem maxKey_cons (p : Nat × StoredUser) (rest : Store) :
    maxKey (p :: rest) = max p.1 (maxKey rest) :=
  rfl

theorem key_le_maxKey (s : Store) : ∀ p ∈ s, p.1 ≤ maxKey s := by
  induction s with
  | nil => intro p hp; cases hp
  | cons q rest ih =>
    intro p hp
    rw [maxKey_cons]
    rcases List.mem_cons.mp hp with rfl | hmem
    · omega
    · have := ih p hmem
      omega

theorem maxKey_lt_of_forall_lt (s : Store) (m : Nat)
    (h : ∀ p ∈ s, p.1 < m) (hm : 0 < m) : maxKey s < m := by
  induction s with
  | nil => simpa [maxKey] using hm
  | cons q rest ih =>
    rw [maxKey_cons]
    have h1 := h q (List.mem_cons_self q rest)
    have h2 := ih (fun p hp => h p (List.mem_cons_of_mem q hp))
    omega

theorem lookupKey_none_of_maxKey_lt (s : Store) (k : Nat)
    (h : maxKey s < k) : lookupKey s k = none := by
  induction s with
  | nil => rfl
  | cons p rest ih =>
    rw [maxKey_cons] at h
    have hp : p.1 ≠ k := by omega
    simp only [lookupKey, hp, if_false]
    exact ih (by omega)

theorem newUserId_eq (s : Store) : newUserId s = maxKey s + 1 := by
  cases s with
  | nil => simp [newUserId, maxKey]
  | cons p rest => simp [newUserId, List.isEmpty_cons]

theorem maxKey_append_single (s : Store) (k : Nat) (v : StoredUser) :
    maxKey (s ++ [(k, v)]) = max (maxKey s) k := by
  induction s with
  | nil => simp [maxKey]
  | cons p rest ih =>
    simp only [List.cons_append, maxKey_cons] at ih ⊢
    omega

theorem create_user_store_eq (s : Store) (u : UserCreate) (now : String) :
    (create_user s u now).1 = s ++ [(newUserId s, (create_user s u now).2)] := by
  have hnone : lookupKey s (newUserId s) = none := by
    apply lookupKey_none_of_maxKey_lt
    rw [newUserId_eq]
    omega
  simp [create_user, dictSet, hnone]

theorem maxKey_create (s : Store) (u : UserCreate) (now : String) :
    maxKey ((create_user s u now).1) = maxKey s + 1 := by
  rw [create_user_store_eq, maxKey_append_single, newUserId_eq]
  omega

theorem maxKey_createN (s : Store) (u : UserCreate) (now : String) (n : Nat) :
    maxKey (createN s u now n) = maxKey s + n := by
  induction n with
  | zero => rfl
  | succ n ih =>
    show maxKey ((create_user (createN s u now n) u now).1) = _
    rw [maxKey_create, ih]
    omega

theorem create_user_assigned_id (s : Store) (u : UserCreate) (now : String) :
    (create_user s u now).2.user_id = newUserId s :=
  rfl

theorem etag_ne_empty (u : StoredUser) : generate_etag u ≠ "" := by
  intro h
  have hd := congrArg String.data h
  simp [generate_etag, md5Hex, String.data_append] at hd

theorem natRepr_no_dash_mem (n : Nat) : '-' ∉ (natRepr n).data := by
  intro hm
  exact natRepr_no_dash n '-' hm rfl

theorem generate_etag_eq_iff (u v : StoredUser) :
    generate_etag u = generate_etag v ↔
      u.user_id = v.user_id ∧ u.updated_at = v.updated_at := by
  constructor
  · intro h
    have hd := congrArg String.data h
    have hq : ("\"" : String).data = ['"'] := rfl
    have hdash : ("-" : String).data = ['-'] := rfl
    simp only [generate_etag, md5Hex, etagData, String.data_append, hq, hdash]
      at hd
    have hd2 := List.append_cancel_right hd
    have hd3 := List.append_cancel_left hd2
    simp only [List.append_assoc, List.singleton_append] at hd3
    have hsplit := append_dash_inj _ _ _ _
      (natRepr_no_dash_mem u.user_id) (natRepr_no_dash_mem v.user_id) hd3
    constructor
    · exact natRepr_inj (String.ext hsplit.1)
    · exact congrArg String.mk hsplit.2
  · intro h
    simp [generate_etag, etagData, h.1, h.2]

theorem natRepr_small (n : Nat) (h : n < 10) : natRepr n = ⟨[digitChar n]⟩ := by
  rw [natRepr, natDigitsAux.eq_def]
  simp [h]

theorem natRepr_one : natRepr 1 = "1" := by
  rw [natRepr_small 1 (by omega)]
  rfl

theorem natRepr_two : natRepr 2 = "2" := by
  rw [natRepr_small 2 (by omega)]
  rfl

theorem generate_etag_mockUser1 :
    generate_etag mockUser1 = "\"1-2024-01-15T10:00:00\"" := by
  rw [generate_etag, md5Hex, etagData]
  show "\"" ++ (natRepr mockUser1.user_id ++ "-" ++ mockUser1.updated_at) ++ "\"" = _
  rw [show mockUser1.user_id = 1 from rfl, natRepr_one]
  rfl

theorem mem_delKey {κ α : Type} [DecidableEq κ] (s : List (κ × α)) (k : κ)
    (p : κ × α) (h : p ∈ delKey s k) : p ∈ s ∧ p.1 ≠ k := by
  induction s with
  | nil => cases h
  | cons q rest ih =>
    by_cases hq : q.1 = k
    · simp only [delKey, hq, if_true] at h
      have := ih h
      exact ⟨List.mem_cons_of_mem q this.1, this.2⟩
    · simp only [delKey, hq, if_false] at h
      rcases List.mem_cons.mp h with rfl | hmem
      · exact ⟨List.mem_cons_self p rest, hq⟩
      · have := ih hmem
        exact ⟨List.mem_cons_of_mem q this.1, this.2⟩

-- ==== Claim theorems ====

/-- C5: for every stored user record with fingerprint F, a read whose
client-supplied fingerprint equals F returns NotModified with the same
fingerprint echoed; a read with any other client-supplied value, or with
none, returns the full resource together with header F.  Comparison is
strict string equality. -/
theorem C5_conditional_read (store : Store) (uid : Nat) (u : StoredUser)
    (h : lookupKey store uid = some u) :
    get_user store uid (some (generate_etag u)) =
      GetUserResult.notModified (generate_etag u)
    ∧ (∀ g, g ≠ generate_etag u →
        get_user store uid (some g) = GetUserResult.ok u (generate_etag u))
    ∧ get_user store uid none = GetUserResult.ok u (generate_etag u) := by
  refine ⟨?_, ?_, ?_⟩
  · simp only [get_user, h]
    rw [if_pos ⟨etag_ne_empty u, trivial⟩]
  · intro g hg
    simp only [get_user, h]
    rw [if_neg (fun hc => hg hc.2)]
  · simp only [get_user, h]

/-- Witness for C5 at the seeded store: user 1 exists, and a conditional
read that echoes its own fingerprint is answered NotModified. -/
theorem C5_conditional_read_witness :
    lookupKey mockUsers 1 = some mockUser1
    ∧ get_user mockUsers 1 (some (generate_etag mockUser1)) =
        GetUserResult.notModified (generate_etag mockUser1) :=
  ⟨rfl, (C5_conditional_read mockUsers 1 mockUser1 rfl).1⟩

/-- C6: the fingerprint is a deterministic function of the pair
(user identifier, updated-at as canonical string): two records have equal
fingerprints iff they agree on both components; in particular it is stable
on an unchanged record and changes with updated-at. -/
theorem C6_fingerprint_iff (u v : StoredUser) :
    generate_etag u = generate_etag v ↔
      u.user_id = v.user_id ∧ u.updated_at = v.updated_at :=
  generate_etag_eq_iff u v

/-- Witness for C6 at concrete records: instantiating both sides at the two
seeded users. -/
theorem C6_fingerprint_iff_witness :
    generate_etag mockUser1 = generate_etag mockUser2 ↔
      mockUser1.user_id = mockUser2.user_id
      ∧ mockUser1.updated_at = mockUser2.updated_at :=
  C6_fingerprint_iff mockUser1 mockUser2

/-- C9: the registration endpoint and the creation endpoint are equivalent:
register_user delegates to create_user unchanged, so both perform the same
store change and return the same response. -/
theorem C9_register_eq_create (store : Store) (u : UserCreate) (now : String) :
    register_user store u now = create_user store u now :=
  rfl

/-- Witness for C9 at the seeded store and a concrete payload. -/
theorem C9_register_eq_create_witness :
    register_user mockUsers
      { first_name := "Amy", last_name := "Lee", email := "amy@x.com"
        phone := none, address := none, city := none, state := none
        zip_code := none, password := "password1" } "2024-03-01T00:00:00"
    = create_user mockUsers
      { first_name := "Amy", last_name := "Lee", email := "amy@x.com"
        phone := none, address := none, city := none, state := none
        zip_code := none, password := "password1" } "2024-03-01T00:00:00" :=
  C9_register_eq_create mockUsers
    { first_name := "Amy", last_name := "Lee", email := "amy@x.com"
      phone := none, address := none, city := none, state := none
      zip_code := none, password := "password1" } "2024-03-01T00:00:00"

/-- C7: a partial update changes exactly the supplied fields: every absent
field keeps its prior value, an explicitly supplied value (null included)
overwrites, the identifier, created-at and status are never changed, and
updated-at is refreshed to the mutation time. -/
theorem C7_partial_update (store : Store) (uid : Nat) (u : StoredUser)
    (p : UserUpdate) (now : String) (h : lookupKey store uid = some u) :
    update_user store uid p now =
      some (dictSet store uid (applyUserUpdate u p now), applyUserUpdate u p now)
    ∧ lookupKey (dictSet store uid (applyUserUpdate u p now)) uid =
        some (applyUserUpdate u p now)
    ∧ (applyUserUpdate u p now).user_id = u.user_id
    ∧ (applyUserUpdate u p now).created_at = u.created_at
    ∧ (applyUserUpdate u p now).status = u.status
    ∧ (applyUserUpdate u p now).updated_at = now
    ∧ (p.first_name = none → (applyUserUpdate u p now).first_name = u.first_name)
    ∧ (p.last_name = none → (applyUserUpdate u p now).last_name = u.last_name)
    ∧ (p.email = none → (applyUserUpdate u p now).email = u.email)
    ∧ (p.phone = none → (applyUserUpdate u p now).phone = u.phone)
    ∧ (p.address = none → (applyUserUpdate u p now).address = u.address)
    ∧ (p.city = none → (applyUserUpdate u p now).city = u.city)
    ∧ (p.state = none → (applyUserUpdate u p now).state = u.state)
    ∧ (p.zip_code = none → (applyUserUpdate u p now).zip_code = u.zip_code)
    ∧ (∀ x, p.first_name = some x → (applyUserUpdate u p now).first_name = x)
    ∧ (∀ x, p.phone = some x → (applyUserUpdate u p now).phone = x) := by
  refine ⟨by simp [update_user, h], lookupKey_dictSet_self store uid _,
    rfl, rfl, rfl, rfl, ?_, ?_, ?_, ?_, ?_, ?_, ?_, ?_, ?_, ?_⟩
  all_goals
    first
    | (intro hf; simp [applyUserUpdate, hf])
    | (intro x hf; simp [applyUserUpdate, hf])

/-- Witness for C7 at the seeded store: an update of user 1 that supplies a
new first name and an explicit null phone, leaving the rest absent. -/
theorem C7_partial_update_witness :
    lookupKey mockUsers 1 = some mockUser1
    ∧ (applyUserUpdate mockUser1
        { emptyUpdate with
          first_name := some (some "Johnny")
          phone := some none } "2024-04-01T00:00:00").created_at
        = mockUser1.created_at :=
  ⟨rfl,
    (C7_partial_update mockUsers 1 mockUser1
      { emptyUpdate with
        first_name := some (some "Johnny")
        phone := some none } "2024-04-01T00:00:00" rfl).2.2.2.1⟩

/-- C1 counterexample: in the seeded store, user 1's fingerprint is not
the stale string, yet a DELETE carrying that stale fingerprint is executed:
the record is removed, so the write had side effects instead of being
rejected with PreconditionFailed. -/
theorem C1_counterexample :
    "\"stale\"" ≠ generate_etag mockUser1
    ∧ delete_request mockUsers 1 (some "\"stale\"") = some [(2, mockUser2)]
    ∧ lookupKey [((2 : Nat), mockUser2)] 1 = none := by
  refine ⟨?_, rfl, rfl⟩
  rw [generate_etag_mockUser1]
  decide

/-- C1 amended: the update and delete routes accept no fingerprint — a
client-supplied If-Match value is ignored, so every write behaves exactly
like a write carrying no fingerprint (which, as the claim states, proceeds
unconditionally): a write on an existing record always proceeds and mutates
the store, and no write is ever rejected for a fingerprint mismatch. -/
theorem C1_amended (store : Store) (uid : Nat) (p : UserUpdate)
    (now : String) (g : String) :
    update_request store uid p now (some g) = update_request store uid p now none
    ∧ delete_request store uid (some g) = delete_request store uid none
    ∧ (∀ u, lookupKey store uid = some u →
        delete_request store uid (some g) = some (delKey store uid)
        ∧ lookupKey (delKey store uid) uid = none
        ∧ update_request store uid p now (some g) =
            some (dictSet store uid (applyUserUpdate u p now),
              applyUserUpdate u p now)) :=
  ⟨rfl, rfl, fun u h =>
    ⟨by simp [delete_request, delete_user, h],
     lookupKey_delKey_self store uid,
     by simp [update_request, update_user, h]⟩⟩

/-- Witness for C1 amended at the seeded store: user 1 exists and a DELETE
carrying a stale fingerprint removes it. -/
theorem C1_amended_witness :
    lookupKey mockUsers 1 = some mockUser1
    ∧ delete_request mockUsers 1 (some "\"stale\"") =
        some (delKey mockUsers 1) :=
  ⟨rfl,
    ((C1_amended mockUsers 1 emptyUpdate "2024-04-01T00:00:00"
      "\"stale\"").2.2 mockUser1 rfl).1⟩

/-- C2 counterexample: actor 1 issues a DELETE and a rentals read for target
2; both are processed (the record is removed, the rentals are returned)
instead of returning Forbidden. -/
theorem C2_counterexample :
    (1 : Nat) ≠ 2
    ∧ delete_as 1 mockUsers 2 = some [(1, mockUser1)]
    ∧ rentals_as 1 mockUsers 2 false = RentalsResult.ok []
    ∧ update_as 1 mockUsers 2 emptyUpdate "2024-04-01T00:00:00" ≠ none := by
  refine ⟨by decide, rfl, rfl, by decide⟩

/-- C2 amended: the mutating and rental-read routes perform no
authentication and no ownership check: the outcome of any such request is
independent of the actor and never Forbidden — it depends only on whether
the target exists (404 when absent; processed when present). -/
theorem C2_amended (actor actor2 : Nat) (store : Store) (uid : Nat)
    (p : UserUpdate) (now : String) (b : Bool) :
    update_as actor store uid p now = update_as actor2 store uid p now
    ∧ delete_as actor store uid = delete_as actor2 store uid
    ∧ rentals_as actor store uid b = rentals_as actor2 store uid b
    ∧ (lookupKey store uid = none →
        update_as actor store uid p now = none
        ∧ delete_as actor store uid = none
        ∧ rentals_as actor store uid b = RentalsResult.notFound)
    ∧ (∀ u, lookupKey store uid = some u →
        rentals_as actor store uid b = RentalsResult.ok []
        ∧ delete_as actor store uid = some (delKey store uid)) :=
  ⟨rfl, rfl, rfl,
   fun h => ⟨by simp [update_as, update_user, h],
             by simp [delete_as, delete_user, h],
             by simp [rentals_as, get_user_rentals, h]⟩,
   fun u h => ⟨by simp [rentals_as, get_user_rentals, h],
               by simp [delete_as, delete_user, h]⟩⟩

/-- Witness for C2 amended: actor 1 against target 2 in the seeded store:
the rentals read is served rather than forbidden. -/
theorem C2_amended_witness :
    lookupKey mockUsers 2 = some mockUser2
    ∧ rentals_as 1 mockUsers 2 false = RentalsResult.ok [] :=
  ⟨rfl,
    ((C2_amended 1 2 mockUsers 2 emptyUpdate "2024-04-01T00:00:00"
      false).2.2.2.2 mockUser2 rfl).1⟩

/-- A creation payload that reuses the email of seeded user 1. -/
def dupCreate : UserCreate :=
  { first_name := "Johnny"
    last_name := "Smithson"
    email := "john.smith@email.com"
    phone := none
    address := none
    city := none
    state := none
    zip_code := none
    password := "password1" }

/-- A creation payload with a fresh email, for witnesses. -/
def freshCreate : UserCreate :=
  { first_name := "Amy"
    last_name := "Lee"
    email := "amy@x.com"
    phone := none
    address := none
    city := none
    state := none
    zip_code := none
    password := "password1" }

/-- C3 failing input: the login route issues the bearer token for a known
email together with an arbitrary wrong password, while the repository's own
crud-layer authenticate_user rejects the same email/password pair. -/
theorem C3_login_ignores_password :
    login_user mockUsers "john.smith@email.com" "totally-wrong-password"
      = LoginResult.ok 1 "john.smith@email.com" "mock_jwt_token_12345"
    ∧ authenticate_user
        [{ user_id := 1
           email := "john.smith@email.com"
           hashed_password := get_password_hash "rightpass1" }]
        "john.smith@email.com" "totally-wrong-password" = none := by
  exact ⟨rfl, rfl⟩

/-- C4 failing input: creating a user with the email of seeded user 1 is
accepted (201, new identifier 3) instead of failing with Conflict, so the
store then holds two records with the same email. -/
theorem C4_duplicate_email_accepted :
    mockUser1.email = some "john.smith@email.com"
    ∧ (create_user mockUsers dupCreate "2024-05-01T00:00:00").2.user_id = 3
    ∧ (create_user mockUsers dupCreate "2024-05-01T00:00:00").2.email
        = some "john.smith@email.com"
    ∧ lookupKey (create_user mockUsers dupCreate "2024-05-01T00:00:00").1 1
        = some mockUser1
    ∧ lookupKey (create_user mockUsers dupCreate "2024-05-01T00:00:00").1 3
        = some (create_user mockUsers dupCreate "2024-05-01T00:00:00").2 := by
  exact ⟨rfl, rfl, rfl, rfl, rfl⟩

/-- C8: submitting a verify-email job for an existing user returns 202 with
the job id and registers the job as pending with started-at set; a poll
before the worker runs observes pending; after the worker completes, a poll
observes completed with completed-at set and started-at still equal to its
submission value. -/
theorem C8_async_job (users : Store) (tasks : TaskStore) (uid : Nat)
    (u : StoredUser) (tid : String) (now1 now2 : String)
    (hu : lookupKey users uid = some u) :
    (verify_email_async users tasks uid tid now1).1 =
      VerifyEmailResult.accepted tid "pending"
    ∧ get_task_status (verify_email_async users tasks uid tid now1).2 tid =
        some { task_id := tid, status := "pending", user_id := some uid,
               message := "Email verification in progress",
               started_at := some now1, completed_at := none }
    ∧ ∃ tasks2,
        send_verification_email_task
          (verify_email_async users tasks uid tid now1).2 uid tid now2
          = some tasks2
        ∧ get_task_status tasks2 tid =
            some { task_id := tid, status := "completed", user_id := some uid,
                   message := "Verification email sent successfully",
                   started_at := some now1, completed_at := some now2 } := by
  have h2 : (verify_email_async users tasks uid tid now1).2 =
      dictSet tasks tid
        { task_id := tid, status := "pending", user_id := some uid,
          message := "Email verification in progress",
          started_at := some now1, completed_at := none } := by
    simp [verify_email_async, hu]
  have hlook : lookupKey (verify_email_async users tasks uid tid now1).2 tid =
      some { task_id := tid, status := "pending", user_id := some uid,
             message := "Email verification in progress",
             started_at := some now1, completed_at := none } := by
    rw [h2]
    exact lookupKey_dictSet_self _ _ _
  refine ⟨by simp [verify_email_async, hu], ?_, ?_⟩
  · rw [get_task_status]
    exact hlook
  · refine ⟨dictSet (verify_email_async users tasks uid tid now1).2 tid
      { task_id := tid, status := "completed", user_id := some uid,
        message := "Verification email sent successfully",
        started_at := some now1, completed_at := some now2 }, ?_, ?_⟩
    · simp [send_verification_email_task, hlook]
    · rw [get_task_status]
      exact lookupKey_dictSet_self _ _ _

/-- Witness for C8: seeded user 1, an empty task store and a fresh job id:
submission returns 202 Accepted with status pending. -/
theorem C8_async_job_witness :
    lookupKey mockUsers 1 = some mockUser1
    ∧ (verify_email_async mockUsers [] 1 "job-1" "2024-06-01T00:00:00").1 =
        VerifyEmailResult.accepted "job-1" "pending" :=
  ⟨rfl, (C8_async_job mockUsers [] 1 mockUser1 "job-1" "2024-06-01T00:00:00"
    "2024-06-01T00:00:05" rfl).1⟩

/-- C10: creation assigns identifier max(existing keys) + 1, or 1 on the
empty store, so the new identifier exceeds every stored identifier; and
after deleting the record with the largest identifier, some later creation
assigns that same identifier again. -/
theorem C10_id_assignment (s : Store) (u : UserCreate) (now : String) :
    (create_user s u now).2.user_id = (if s.isEmpty then 1 else maxKey s + 1)
    ∧ (∀ p ∈ s, p.1 < (create_user s u now).2.user_id)
    ∧ (∀ s', 0 < maxKey s → delete_user s (maxKey s) = some s' →
        ∃ j, 1 ≤ j ∧
          (create_user (createN s' u now (j - 1)) u now).2.user_id
            = maxKey s) := by
  refine ⟨rfl, ?_, ?_⟩
  · intro p hp
    have h1 := key_le_maxKey s p hp
    have h2 : (create_user s u now).2.user_id = newUserId s := rfl
    rw [h2, newUserId_eq]
    omega
  · intro s' hm hdel
    cases hl : lookupKey s (maxKey s) with
    | none => simp [delete_user, hl] at hdel
    | some w =>
      simp only [delete_user, hl, Option.some.injEq] at hdel
      subst hdel
      have hk : maxKey (delKey s (maxKey s)) < maxKey s := by
        apply maxKey_lt_of_forall_lt _ _ ?_ hm
        intro p hp
        obtain ⟨hmem, hne⟩ := mem_delKey s (maxKey s) p hp
        have := key_le_maxKey s p hmem
        omega
      refine ⟨maxKey s - maxKey (delKey s (maxKey s)), by omega, ?_⟩
      have h3 : ∀ t : Store, (create_user t u now).2.user_id = newUserId t :=
        fun t => rfl
      rw [h3, newUserId_eq, maxKey_createN]
      omega

/-- Witness for C10 at the seeded store: deleting the record with the
largest identifier (2) succeeds, and a later creation reassigns 2. -/
theorem C10_id_assignment_witness :
    0 < maxKey mockUsers
    ∧ delete_user mockUsers (maxKey mockUsers) = some [(1, mockUser1)]
    ∧ ∃ j, 1 ≤ j ∧
        (create_user (createN [(1, mockUser1)] freshCreate
          "2024-07-01T00:00:00" (j - 1)) freshCreate
          "2024-07-01T00:00:00").2.user_id = maxKey mockUsers :=
  ⟨by decide, rfl,
    (C10_id_assignment mockUsers freshCreate "2024-07-01T00:00:00").2.2
      [(1, mockUser1)] (by decide) rfl⟩
